import Mathlib

/-!
Verification of the conversation-orchestration pipeline of this repository
(services/intent_handler.py, services/language_detector.py, services/data_api.py,
sada999/.../services/response_generator.py, sada999/.../services/speech_to_text.py)
against its natural-language specification.

The Python sources are shallowly embedded below: pure functions become Lean
functions, Python dicts become insertion-ordered association lists with unique
keys, float confidences become `ℚ`, network calls become explicit oracle
parameters, and code that raises becomes `Except` / explicit error results.
-/

namespace Sada

/-- One Python value as it appears in the entity mappings and data payloads of
this code base: either a string or a list of strings. -/
inductive EVal where
  | str (s : String)
  | list (l : List String)
deriving DecidableEq, Repr

/-- A Python dict with string keys, embedded as an insertion-ordered
association list.  The Python runtime guarantees unique keys. -/
abbrev PyDict := List (String × EVal)

/-- Python truthiness of an `EVal`: the empty string and the empty list are
falsy (`not entities[param]` in the sources). -/
def evalFalsy : EVal → Bool
  | .str s => s = ""
  | .list l => l.isEmpty

/-- Python's substring test `needle in haystack` on character lists. -/
def isSubstr : List Char → List Char → Bool
  | n, [] => n.isEmpty
  | n, c :: t => n.isPrefixOf (c :: t) || isSubstr n t

/-- Python's substring test `needle in haystack` on strings. -/
def pySubstr (needle haystack : String) : Bool :=
  isSubstr needle.toList haystack.toList

/-- Python's `sep.join(parts)`. -/
def joinSep (sep : String) : List String → String
  | [] => ""
  | [x] => x
  | x :: xs => x ++ sep ++ joinSep sep xs

/-- Code-point lexicographic `≤` on character lists: the order Python uses to
compare strings (`sorted` in `data_api.py`). -/
def lexLeB : List Char → List Char → Bool
  | [], _ => true
  | _ :: _, [] => false
  | a :: as, b :: bs =>
    if a.toNat < b.toNat then true
    else if b.toNat < a.toNat then false
    else lexLeB as bs

/-- Python's string `≤`, via code points. -/
def strLe (a b : String) : Prop := lexLeB a.toList b.toList = true

instance : DecidableRel strLe := fun a b => by unfold strLe; infer_instance

/-! ## Intent handler (`services/intent_handler.py`)

The module imports `os`, `logging`, `json`, `typing` and `requests` but not
`re`, while `IntentHandler._clean_text` (lines 195–214) calls `re.sub`.  Every
call of `_clean_text` therefore raises `NameError: name 're' is not defined`,
which `extract_intent`'s outer `try` catches.  `_clean_text` is embedded as the
`Except` value that the call produces at runtime. -/

/-- The exception message `_clean_text` raises (as `str(e)` renders it). -/
def nameErrorRe : String := "name \x27re\x27 is not defined"

/-- Embeds `IntentHandler._clean_text` (intent_handler.py lines 195–214).  The body
runs `re.sub(...)` first, but `re` is never imported in the module, so the
call raises `NameError` for every input before any cleaning happens. -/
def cleanText (_text : String) : Except String String :=
  .error nameErrorRe

/-- The result dict of intent extraction (`{"intent", "confidence", "source",
"language", "error"}`; absent keys are `none`). -/
structure IntentResult where
  intent : String
  confidence : ℚ
  source : Option String := none
  language : Option String := none
  error : Option String := none
deriving DecidableEq, Repr

/-- The static intent catalog of `IntentHandler.supported_intents`
(intent_handler.py lines 20–129), restricted to the `keywords` field, which is
the only field the classifier reads: intent name → language → keyword list,
in the source's insertion order. -/
def intentCatalog : List (String × List (String × List String)) :=
  [("greeting",
     [("ar", ["مرحبا", "أهلا", "زين", "صباح الخير", "مساء الخير", "أهلا وسهلا"]),
      ("en", ["hello", "hi", "hey", "good morning", "good evening"]),
      ("fr", ["bonjour", "salut", "bonsoir"]),
      ("es", ["hola", "buenos días", "buenas tardes"]),
      ("de", ["hallo", "guten Morgen", "guten Abend"])]),
   ("goodbye",
     [("ar", ["وداعا", "مع السلامة", "راحت بالك", "حتى اللقاء"]),
      ("en", ["goodbye", "bye", "see you", "farewell"]),
      ("fr", ["au revoir", "salut", "à plus tard"]),
      ("es", ["adiós", "hasta luego", "nos vemos"]),
      ("de", ["auf Wiedersehen", "tschüss", "bis später"])]),
   ("appointment_booking",
     [("ar", ["أريد حجز موعد", "احجز لي موعد", "مواعيد", "متى يمكنني الحجز"]),
      ("en", ["book appointment", "schedule meeting", "when can I book"]),
      ("fr", ["prendre rendez-vous", "planifier une réunion"]),
      ("es", ["cita", "reservar cita", "agendar cita"]),
      ("de", ["Termin vereinbaren", "Termin buchen"])]),
   ("shipment_inquiry",
     [("ar", ["حالة شحنتي", "تتبع شحنتي", "أين شحنتي", "متابعة شحنة"]),
      ("en", ["track shipment", "where is my package", "shipping status"]),
      ("fr", ["suivre la livraison", "où est mon colis", "statut d\x27expédition"]),
      ("es", ["seguir envío", "dónde está mi paquete", "estado del envío"]),
      ("de", ["Sendung verfolgen", "Wo ist mein Paket", "Versandstatus"])]),
   ("account_balance",
     [("ar", ["ما رصيد حسابي", "رصيدي", "حسابي", "رصيدي الحالي"]),
      ("en", ["account balance", "my balance", "check balance"]),
      ("fr", ["solde du compte", "mon solde", "vérifier le solde"]),
      ("es", ["saldo de la cuenta", "mi saldo", "verificar saldo"]),
      ("de", ["Kontostand", "Mein Kontostand", "Kontostand prüfen"])]),
   ("general_inquiry",
     [("ar", ["ما هو", "ماذا", "كيف", "متى", "أين", "لماذا"]),
      ("en", ["what is", "what", "how", "when", "where", "why"]),
      ("fr", ["quoi", "comment", "quand", "où", "pourquoi"]),
      ("es", ["qué", "cómo", "cuándo", "dónde", "por qué"]),
      ("de", ["was ist", "was", "wie", "wann", "wo", "warum"])])]

/-- The keyword score of one intent (`_extract_with_keywords` lines 303–313):
`matches / len(keywords)` (0 when the keyword list is empty), down-weighted by
0.7 for texts shorter than 10 characters and up-weighted by 1.2 for texts
longer than 100 characters.  No cap is applied. -/
def keywordScore (keywords : List String) (text : String) : ℚ :=
  let nMatches : ℚ := ((keywords.filter (fun k => pySubstr k text)).length : ℚ)
  let ratio : ℚ := if keywords = [] then 0 else nMatches / (keywords.length : ℚ)
  if text.length < 10 then ratio * (7 / 10)
  else if text.length > 100 then ratio * (6 / 5)
  else ratio

/-- The `intent_scores` dict of `_extract_with_keywords` (lines 296–315): one
entry per catalog intent that has a keyword list for `language`, in catalog
order. -/
def intentScores (text language : String) : List (String × ℚ) :=
  intentCatalog.filterMap (fun p =>
    match p.2.lookup language with
    | some kws => some (p.1, keywordScore kws text)
    | none => none)

/-- Python's `max(d, key=d.get)` over an insertion-ordered dict: the first key
holding the maximal value (later entries replace the champion only when
strictly greater). -/
def pyMaxByVal : List (String × ℚ) → Option (String × ℚ)
  | [] => none
  | p :: rest =>
    match pyMaxByVal rest with
    | none => some p
    | some q => if q.2 > p.2 then some q else some p

/-- Embeds `IntentHandler._extract_with_keywords` (intent_handler.py lines 285–333):
the argmax intent when the score dict is non-empty, otherwise the
`general_inquiry` / 0.5 fallback.  Note the fallback branch is taken only when
`intent_scores` is empty, i.e. when no intent has a keyword list for the
language, not when all scores are zero. -/
def extractWithKeywords (text language : String) : IntentResult :=
  match pyMaxByVal (intentScores text language) with
  | some p => { intent := p.1, confidence := p.2, source := some "keywords" }
  | none => { intent := "general_inquiry", confidence := 1 / 2, source := some "keywords" }

/-- The conversation-context dict read by `_enhance_with_context`:
`previous_intent` (the prior turn's result dict) and `language`. -/
structure IntentContext where
  previous_intent : Option IntentResult := none
  language : Option String := none

/-- Embeds `IntentHandler._enhance_with_context` (intent_handler.py lines 335–363):
multiply the confidence by 1.2, capped at 1.0, when the context's previous
intent has the same name; then overwrite the result's language from the
context when they differ. -/
def enhanceWithContext (r : IntentResult) (ctx : IntentContext) : IntentResult :=
  let r1 :=
    match ctx.previous_intent with
    | some prev =>
        if r.intent = prev.intent then
          { r with confidence := min (r.confidence * (6 / 5)) 1 }
        else r
    | none => r
  match ctx.language with
  | some l => if some l ≠ r1.language then { r1 with language := some l } else r1
  | none => r1

/-- Embeds `IntentHandler.extract_intent` (intent_handler.py lines 156–193).  The
external NLU step (`_extract_with_pretrained_models`) is a network call
embedded as the oracle `nlu`; `none` means it yielded no result.  Because
`_clean_text` raises `NameError` (no `import re`), every call takes the
`except` path of lines 187–193 and returns the `general_inquiry` / 0.0 error
dict; the keyword fallback of line 177 is dead code. -/
def extractIntent (nlu : Option IntentResult) (text language : String)
    (context : Option IntentContext) : IntentResult :=
  match cleanText text with
  | .error e => { intent := "general_inquiry", confidence := 0, error := some e }
  | .ok cleaned =>
      let r :=
        match nlu with
        | some nluResult => nluResult
        | none => extractWithKeywords cleaned language
      match context with
      | some ctx => enhanceWithContext r ctx
      | none => r

/-! ## Language detector (`services/language_detector.py`) -/

/-- The character class of the Arabic signature pattern `[؀-ۿ]`
(code points U+0600 – U+06FF). -/
def isArChar (c : Char) : Bool := 0x600 ≤ c.toNat && c.toNat ≤ 0x6FF

/-- The character class of the English signature pattern `[a-zA-Z]`. -/
def isEnChar (c : Char) : Bool :=
  (97 ≤ c.toNat && c.toNat ≤ 122) || (65 ≤ c.toNat && c.toNat ≤ 90)

/-- The character class of the French signature pattern
`[a-zA-Zàâäéèêëïîôöùûüÿç]`. -/
def isFrChar (c : Char) : Bool :=
  isEnChar c || "àâäéèêëïîôöùûüÿç".toList.contains c

/-- The character class of the Spanish signature pattern
`[a-zA-Záéíóúüñ¿¡]`. -/
def isEsChar (c : Char) : Bool :=
  isEnChar c || "áéíóúüñ¿¡".toList.contains c

/-- The character class of the German signature pattern `[a-zA-Zäöüß]`. -/
def isDeChar (c : Char) : Bool :=
  isEnChar c || "äöüß".toList.contains c

/-- Python's `str.lower`, modelled on the character ranges the detector's
patterns inspect: ASCII `A-Z` and the Latin-1 uppercase letters `À-Þ` (minus
`×`) map to their lowercase forms 32 code points higher; every other character
is returned unchanged. -/
def pyLowerChar (c : Char) : Char :=
  if 65 ≤ c.toNat && c.toNat ≤ 90 then Char.ofNat (c.toNat + 32)
  else if 0xC0 ≤ c.toNat && c.toNat ≤ 0xDE && c.toNat ≠ 0xD7 then Char.ofNat (c.toNat + 32)
  else c

/-- Embeds `LanguageDetector.supported_languages` (language_detector.py lines 20–56),
restricted to the signature patterns, in the source's insertion order. -/
def langPatterns : List (String × (Char → Bool)) :=
  [("ar", isArChar), ("en", isEnChar), ("fr", isFrChar), ("es", isEsChar), ("de", isDeChar)]

/-- The shared length-adjusted character-ratio score of the detector
(language_detector.py lines 116–127 and 229–240): the fraction of characters
of `text` matching `pattern` (0 for the empty text), multiplied by 0.7 for
texts shorter than 10 characters and by 1.2 for texts longer than 100
characters.  No cap is applied. -/
def charRatioScore (pattern : Char → Bool) (text : List Char) : ℚ :=
  let ratio : ℚ :=
    if text.length = 0 then 0
    else ((text.filter pattern).length : ℚ) / (text.length : ℚ)
  if text.length < 10 then ratio * (7 / 10)
  else if text.length > 100 then ratio * (6 / 5)
  else ratio

/-- Embeds `LanguageDetector._detect_from_text` (language_detector.py lines 98–134):
lower-case the text, score it against every supported language's pattern, and
return the first language attaining the maximal score (the `"ar"` default of
the empty-score branch is unreachable: the language table is non-empty). -/
def detectFromText (text : String) : String :=
  let lowered := text.toList.map pyLowerChar
  let scores := langPatterns.map (fun p => (p.1, charRatioScore p.2 lowered))
  match pyMaxByVal scores with
  | some p => p.1
  | none => "ar"

/-- Embeds `LanguageDetector._calculate_text_confidence` (language_detector.py lines
213–240): the length-adjusted character-ratio score of the raw (not lowered)
text against the given language's pattern; 0 for unsupported languages. -/
def calculateTextConfidence (text language : String) : ℚ :=
  match langPatterns.lookup language with
  | some pattern => charRatioScore pattern text.toList
  | none => 0

/-- Embeds `LanguageDetector._get_language_confidence` (lines 176–211) in its
text-only form (`audio_stream = None`): `_calculate_text_confidence` when the
language is supported and the text non-empty, otherwise 0. -/
def getTextLanguageConfidence (text language : String) : ℚ :=
  if (langPatterns.lookup language).isSome then
    if text ≠ "" then calculateTextConfidence text language else 0
  else 0

/-- The audio-side environment of `detect_language`: the `language` field the
external detection service returned (`none` when detection failed or the
response had no such field, lines 155–174) and the confidence value
`_get_language_confidence("", audio_language, audio_stream)` produced from its
own network call (0.0 on any failure, lines 188–207). -/
structure AudioEnv where
  detected : Option String := none
  audioConfidence : ℚ := 0

/-- Embeds `LanguageDetector._detect_from_audio` (lines 136–174) given the service's
response: an unsupported or missing detection fails closed to `"ar"`. -/
def detectFromAudio (detected : Option String) : String :=
  match detected with
  | some l => if (langPatterns.lookup l).isSome then l else "ar"
  | none => "ar"

/-- Embeds `LanguageDetector.detect_language` (language_detector.py lines 58–96):
text-based detection, reconciled with audio-based detection (when an audio
stream is present) by comparing confidences; the text side wins strict
comparisons only.  Total by construction — the `except` fallback to `"ar"` of
lines 93–96 has no raising counterpart in the embedding. -/
def detectLanguage (text : String) (audio : Option AudioEnv) : String :=
  let textLanguage := detectFromText text
  match audio with
  | none => textLanguage
  | some env =>
      let audioLanguage := detectFromAudio env.detected
      if textLanguage = audioLanguage then textLanguage
      else if getTextLanguageConfidence text textLanguage > env.audioConfidence then
        textLanguage
      else audioLanguage

/-! ## Data query gateway (`services/data_api.py`) -/

/-- One `QueryDefinition` of `DataAPI.query_definitions` (data_api.py lines
38–87). -/
structure QueryDef where
  endpoint : String
  method : String
  required_params : List String
  optional_params : List String
  response_mapping : List (String × String)
deriving Repr

/-- Embeds `DataAPI.query_definitions` (data_api.py lines 38–87), in the source's
insertion order. -/
def queryDefs : List (String × QueryDef) :=
  [("appointment_booking",
    { endpoint := "/appointments", method := "POST",
      required_params := ["date", "time", "service_type"],
      optional_params := ["doctor_name", "location"],
      response_mapping :=
        [("appointment_id", "id"), ("appointment_date", "date"),
         ("appointment_time", "time"), ("doctor_name", "doctor"), ("status", "status")] }),
   ("shipment_inquiry",
    { endpoint := "/shipments/{tracking_id}", method := "GET",
      required_params := ["tracking_id"], optional_params := [],
      response_mapping :=
        [("tracking_number", "tracking_id"), ("status", "status"),
         ("location", "current_location"),
         ("estimated_delivery", "estimated_delivery_date"), ("carrier", "carrier")] }),
   ("account_balance",
    { endpoint := "/accounts/{account_id}/balance", method := "GET",
      required_params := ["account_id"], optional_params := ["currency"],
      response_mapping :=
        [("account_id", "account_id"), ("balance", "balance"),
         ("currency", "currency"), ("last_updated", "last_updated")] }),
   ("general_inquiry",
    { endpoint := "/search", method := "GET",
      required_params := ["query"], optional_params := ["category", "limit"],
      response_mapping := [("results", "results"), ("total_count", "total")] })]

/-- The cache TTL in seconds: `int(os.getenv("CACHE_TTL", "3600"))` with the
environment default (data_api.py line 28). -/
def cacheTTL : ℚ := 3600

/-- One entry of `DataAPI.cache`: `{"data": ..., "timestamp": ...}`
(data_api.py lines 201–204). -/
structure CacheEntry where
  data : PyDict
  timestamp : ℚ
deriving DecidableEq, Repr

/-- Embeds `DataAPI.cache`, a dict from cache key to entry. -/
abbrev Cache := List (String × CacheEntry)

/-- Python dict assignment `d[k] = v`: overwrite in place, or append. -/
def dictSet {β : Type} (k : String) (v : β) : List (String × β) → List (String × β)
  | [] => [(k, v)]
  | p :: rest => if p.1 = k then (k, v) :: rest else p :: dictSet k v rest

/-- Python dict deletion `del d[k]`. -/
def dictDel {β : Type} (k : String) : List (String × β) → List (String × β)
  | [] => []
  | p :: rest => if p.1 = k then rest else p :: dictDel k rest

/-- Embeds `DataAPI._get_from_cache` (data_api.py lines 172–191): return the stored
data while `now - stored_at < ttl`; once the difference reaches the TTL the
entry is deleted (lazy eviction) and the lookup reports a miss. -/
def getFromCache (now : ℚ) (key : String) (cache : Cache) : Option PyDict × Cache :=
  match cache.lookup key with
  | some entry =>
      if now - entry.timestamp < cacheTTL then (some entry.data, cache)
      else (none, dictDel key cache)
  | none => (none, cache)

/-- Embeds `DataAPI._set_cache` (data_api.py lines 193–204). -/
def setCache (key : String) (data : PyDict) (now : ℚ) (cache : Cache) : Cache :=
  dictSet key ⟨data, now⟩ cache

/-- Embeds `sorted(v)` on a list-valued entity, identity on strings (data_api.py
line 164). -/
def sortedEVal : EVal → EVal
  | .str s => .str s
  | .list l => .list (List.insertionSort strLe l)

/-- The order `sorted(entities.items())` uses: key order.  (Keys of a Python
dict are unique, so the tuple comparison never reaches the values.) -/
def itemLe (p q : String × EVal) : Prop := strLe p.1 q.1

instance : DecidableRel itemLe := fun p q => by unfold itemLe; infer_instance

/-- A JSON string literal (the entity keys and values of this code base need
no escaping). -/
def jsonQuote (s : String) : String := "\x22" ++ s ++ "\x22"

/-- Embeds `json.dumps` of an entity value. -/
def renderEVal : EVal → String
  | .str s => jsonQuote s
  | .list l => "[" ++ joinSep ", " (l.map jsonQuote) ++ "]"

/-- Embeds `json.dumps(sorted_entities, sort_keys=True)` on an already key-sorted
dict (default separators). -/
def serializeEntities (e : PyDict) : String :=
  "\x7b" ++ joinSep ", " (e.map (fun p => jsonQuote p.1 ++ ": " ++ renderEVal p.2)) ++ "\x7d"

/-- Embeds `DataAPI._generate_cache_key` (data_api.py lines 152–170): sort the entity
items by key, sort each list value, serialize deterministically, and prepend
the intent with an underscore. -/
def generateCacheKey (intent : String) (entities : PyDict) : String :=
  let sortedItems := List.insertionSort itemLe entities
  let sortedEntities := sortedItems.map (fun p => (p.1, sortedEVal p.2))
  intent ++ "_" ++ serializeEntities sortedEntities

/-- The required-parameter check of `query_data` (data_api.py line 117):
`param not in entities or not entities[param]`. -/
def entityMissing (entities : PyDict) (param : String) : Bool :=
  match entities.lookup param with
  | some v => evalFalsy v
  | none => true

/-- Embeds `entities[param][0] if isinstance(entities[param], list) else
entities[param]` (data_api.py lines 226, 232); `none` is the `IndexError` an
empty list raises. -/
def collapseEVal : EVal → Option String
  | .str s => some s
  | .list [] => none
  | .list (x :: _) => some x

/-- One pass of `_build_query_params` over a parameter-name list, collecting
present entities into the accumulator dict. -/
def addParams (entities : PyDict) : List String → List (String × String) →
    Except String (List (String × String))
  | [], acc => .ok acc
  | p :: rest, acc =>
      match entities.lookup p with
      | none => addParams entities rest acc
      | some v =>
          match collapseEVal v with
          | some s => addParams entities rest (dictSet p s acc)
          | none => .error "list index out of range"

/-- Embeds `DataAPI._build_query_params` (data_api.py lines 206–235): required then
optional parameters, list values collapsed to their first element (raising
`IndexError` on an empty list, which `query_data`'s outer `try` turns into an
error dict). -/
def buildQueryParams (intent : String) (entities : PyDict) :
    Except String (List (String × String)) :=
  match queryDefs.lookup intent with
  | none => .ok []
  | some qd =>
      match addParams entities qd.required_params [] with
      | .error e => .error e
      | .ok acc => addParams entities qd.optional_params acc

/-- Embeds `DataAPI._map_response` (data_api.py lines 302–324): rename mapped source
fields to their targets, then pass unmapped fields through unchanged.
(`_execute_query` applies this to the backend's JSON before returning; in
`queryData` below the network call and this mapping are together the `exec`
oracle.) -/
def mapResponse (response : PyDict) (mapping : List (String × String)) : PyDict :=
  (mapping.filterMap (fun p =>
    match response.lookup p.1 with
    | some v => some (p.2, v)
    | none => none)) ++
  response.filter (fun kv => (mapping.lookup kv.1).isNone)

/-- Embeds `DataAPI.query_data` (data_api.py lines 94–150).  `exec` is the
`_execute_query` network call (already response-mapped); `now` is
`time.time()`.  Returns the result dict, the updated cache, and whether the
backend was invoked.  Note line 132's `if cached_result:` — a cached result
that is a falsy (empty) dict is treated as a miss. -/
def queryData (exec : String → List (String × String) → PyDict) (now : ℚ)
    (intent : String) (entities : PyDict) (cache : Cache) : PyDict × Cache × Bool :=
  match queryDefs.lookup intent with
  | none => ([("error", .str ("لا يوجد تعريف للاستعلام للنية: " ++ intent))], cache, false)
  | some qd =>
      let missing := qd.required_params.filter (fun p => entityMissing entities p)
      if missing.isEmpty then
        let key := generateCacheKey intent entities
        let looked := getFromCache now key cache
        let fresh := fun (c : Cache) =>
          match buildQueryParams intent entities with
          | .error msg => (([("error", .str msg)] : PyDict), c, false)
          | .ok params =>
              let result := exec intent params
              (result, setCache key result now c, true)
        match looked.1 with
        | some d => if d.isEmpty then fresh looked.2 else (d, looked.2, false)
        | none => fresh looked.2
      else
        (([("error", .str ("الكياانات المفقودة: " ++ joinSep ", " missing)),
           ("missing_entities", .list missing)] : PyDict), cache, false)

/-! ## Response generator
(`sada999/القسم_الرابع_الكود_البرمجي/services/response_generator.py`)

The claims reference the first definitions in the file (lines 1–476); the
duplicated fragment from line 477 on is trailing paste damage. -/

/-- The opening brace character of a format slot. -/
def braceL : Char := Char.ofNat 123

/-- The closing brace character of a format slot. -/
def braceR : Char := Char.ofNat 125

/-- Embeds `ResponseGenerator.response_templates` (response_generator.py lines
61–198): intent → language → phrasing templates, in the source's insertion
order. -/
def responseTemplates : List (String × List (String × List String)) :=
  [("greeting",
    [("ar", ["مرحباً بك! كيف يمكنني مساعدتك اليوم؟",
             "أهلاً بك! أنا هنا لمساعدتك. ما الذي تحتاج إليه؟",
             "زين! يسعدني أن أكون هنا لمساعدتك. ماذا تحتاج؟"]),
     ("en", ["Hello! How can I help you today?",
             "Hi there! I\x27m here to help. What can I do for you?",
             "Greetings! I\x27m glad to assist you. How may I be of service?"]),
     ("fr", ["Bonjour! Comment puis-je vous aider aujourd\x27hui?",
             "Salut! Je suis là pour vous aider. Que puis-je faire pour vous?",
             "Bienvenue! Je suis ravi de vous assister. Comment puis-je vous être utile?"])]),
   ("goodbye",
    [("ar", ["مع السلامة! أتمنى لك يوماً سعيداً.",
             "وداعاً! نلتقي قريباً.",
             "حتى اللقاء! شكراً لاستخدامك خدمتنا."]),
     ("en", ["Goodbye! Have a great day.",
             "Farewell! See you soon.",
             "Goodbye! Thank you for using our service."]),
     ("fr", ["Au revoir! Passez une excellente journée.",
             "Adieu! À bientôt.",
             "Au revoir! Merci d\x27avoir utilisé notre service."])]),
   ("appointment_booking",
    [("ar", ["تم حجز موعد بنجاح! تفاصيل الموعد: {date} في الساعة {time} مع {doctor_name}.",
             "تم تأكيد حجزك. سوف تكون لديك موعد في {date} الساعة {time} مع {doctor_name}.",
             "موفق! تم حجز موعد لك في {date} الساعة {time} مع {doctor_name}."]),
     ("en", ["Appointment booked successfully! Details: {date} at {time} with {doctor_name}.",
             "Your booking is confirmed. You have an appointment on {date} at {time} with {doctor_name}.",
             "Great! Your appointment has been scheduled for {date} at {time} with {doctor_name}."]),
     ("fr", ["Rendez-vous réservé avec succès! Détails: {date} à {time} avec {doctor_name}.",
             "Votre réservation est confirmée. Vous avez un rendez-vous le {date} à {time} avec {doctor_name}.",
             "Parfait! Votre rendez-vous a été programmé pour {date} à {time} avec {doctor_name}."])]),
   ("shipment_inquiry",
    [("ar", ["حالة شحنتك: {status}. الموقع الحالي: {location}. التسليم المتوقع: {estimated_delivery}.",
             "شحنتك الحالة: {status}. توجد حالياً في {location}. من المتوقع أن تصل في {estimated_delivery}.",
             "حالة الشحنة: {status}. الموقع الحالي: {location}. التسليم المتوقع: {estimated_delivery}."]),
     ("en", ["Your shipment status: {status}. Current location: {location}. Estimated delivery: {estimated_delivery}.",
             "Your shipment status: {status}. It is currently at {location}. Expected to arrive on {estimated_delivery}.",
             "Shipment status: {status}. Current location: {location}. Estimated delivery: {estimated_delivery}."]),
     ("fr", ["Statut de votre envoi: {status}. Emplacement actuel: {location}. Livraison estimée: {estimated_delivery}.",
             "Statut de votre envoi: {status}. Il se trouve actuellement à {location}. Livraison prévue le {estimated_delivery}.",
             "Statut de l\x27envoi: {status}. Emplacement actuel: {location}. Livraison estimée: {estimated_delivery}."])]),
   ("account_balance",
    [("ar", ["رصيد حسابك: {balance} {currency}. تم التحديث في: {last_updated}.",
             "رصيد حسابك الحالي هو {balance} {currency}. آخر تحديث: {last_updated}.",
             "حسابك يحتوي على {balance} {currency}. تم التحديث في: {last_updated}."]),
     ("en", ["Your account balance: {balance} {currency}. Last updated: {last_updated}.",
             "Your current account balance is {balance} {currency}. Last updated: {last_updated}.",
             "Your account contains {balance} {currency}. Last updated: {last_updated}."]),
     ("fr", ["Votre solde de compte: {balance} {currency}. Dernière mise à jour: {last_updated}.",
             "Votre solde de compte actuel est de {balance} {currency}. Dernière mise à jour: {last_updated}.",
             "Votre compte contient {balance} {currency}. Dernière mise à jour: {last_updated}."])]),
   ("general_inquiry",
    [("ar", ["بناءً على بحثي، {results}.",
             "وجدت أن {results}.",
             "حسب المعلومات المتوفرة، {results}."]),
     ("en", ["Based on my search, {results}.",
             "I found that {results}.",
             "According to the available information, {results}."]),
     ("fr", ["Selon ma recherche, {results}.",
             "J\x27ai trouvé que {results}.",
             "Selon les informations disponibles, {results}."])]),
   ("error",
    [("ar", ["عذراً، حدث خطأ. يرجى المحاولة مرة أخرى لاحقاً.",
             "آسف، لم أتمكن من معالجة طلبك. يرجى المحاولة مرة أخرى.",
             "عذراً، هناك مشكلة في الخدمة. يرجى المحاولة لاحقاً."]),
     ("en", ["Sorry, an error occurred. Please try again later.",
             "I\x27m sorry, I couldn\x27t process your request. Please try again.",
             "Sorry, there is an issue with the service. Please try again later."]),
     ("fr", ["Désolé, une erreur s\x27est produite. Veuillez réessayer plus tard.",
             "Je suis désolé, je n\x27ai pas pu traiter votre demande. Veuillez réessayer.",
             "Désolé, il y a un problème avec le service. Veuillez réessayer plus tard."])]),
   ("missing_entities",
    [("ar", ["أحتاج إلى معلومات إضافية: {missing_entities}. يرجى تقديمها.",
             "لإكمال طلبك، أحتاج إلى: {missing_entities}. يرجى تقديم هذه المعلومات.",
             "يجب أن أقدم لك هذه المعلومات: {missing_entities}. يرجى تقديمها."]),
     ("en", ["I need additional information: {missing_entities}. Please provide it.",
             "To complete your request, I need: {missing_entities}. Please provide this information.",
             "I need to provide you with this information: {missing_entities}. Please provide it."]),
     ("fr", ["J\x27ai besoin d\x27informations supplémentaires: {missing_entities}. Veuillez les fournir.",
             "Pour compléter votre demande, j\x27ai besoin de: {missing_entities}. Veuillez fournir ces informations.",
             "Je dois vous fournir ces informations: {missing_entities}. Veuillez les fournir."])])]

/-- Python's `str(value)` on an entity value. -/
def pyStr : EVal → String
  | .str s => s
  | .list l => "[" ++ joinSep ", " (l.map (fun s => "\x27" ++ s ++ "\x27")) ++ "]"

/-- The slot names of a format template, in order: every maximal run between
a `\x7b` and the next `\x7d`. -/
def slotNames : List Char → List String
  | [] => []
  | c :: rest =>
      if c = braceL then
        String.mk (rest.takeWhile (· ≠ braceR)) ::
          slotNames ((rest.dropWhile (· ≠ braceR)).drop 1)
      else slotNames rest
termination_by l => l.length
decreasing_by
  · have h1 : ((rest.dropWhile (· ≠ braceR)).drop 1).length ≤
        (rest.dropWhile (· ≠ braceR)).length := by
      simp [List.length_drop]
    have h2 : (rest.dropWhile (· ≠ braceR)).length ≤ rest.length :=
      (List.dropWhile_sublist _).length_le
    simp only [List.length_cons]
    omega
  · simp only [List.length_cons]; omega

/-- Substitution of format slots from a data dict (all slots assumed present;
`fillTemplate` checks that first). -/
def substSlots (data : PyDict) : List Char → String
  | [] => ""
  | c :: rest =>
      if c = braceL then
        let name := String.mk (rest.takeWhile (· ≠ braceR))
        (match data.lookup name with
         | some v => pyStr v
         | none => "") ++ substSlots data ((rest.dropWhile (· ≠ braceR)).drop 1)
      else String.singleton c ++ substSlots data rest
termination_by l => l.length
decreasing_by
  · have h1 : ((rest.dropWhile (· ≠ braceR)).drop 1).length ≤
        (rest.dropWhile (· ≠ braceR)).length := by
      simp [List.length_drop]
    have h2 : (rest.dropWhile (· ≠ braceR)).length ≤ rest.length :=
      (List.dropWhile_sublist _).length_le
    simp only [List.length_cons]
    omega
  · simp only [List.length_cons]; omega

/-- Embeds `ResponseGenerator._fill_template` (response_generator.py lines
316–333): `template.format(**data)`, with the whole template returned
unchanged when any slot's key is absent (the `KeyError` branch). -/
def fillTemplate (template : String) (data : PyDict) : String :=
  if (slotNames template.toList).all (fun n => (data.lookup n).isSome) then
    substSlots data template.toList
  else template

/-- The conversation-context dict read by `generate_response`: Python
truthiness of the `previous_interactions` and `conversation_history`
entries. -/
structure RCtx where
  previous_interactions : Bool := false
  conversation_history : Bool := false

/-- Embeds `ResponseGenerator._enhance_with_context` (response_generator.py
lines 335–369): prepend a continuity phrase, then a history phrase, each
guarded by its context entry. -/
def enhanceResponseWithContext (response : String) (ctx : RCtx) (language : String) : String :=
  let r1 :=
    if ctx.previous_interactions then
      if language = "ar" then "متابعة لمحادثتنا السابقة، " ++ response
      else if language = "en" then "Continuing our previous conversation, " ++ response
      else "Continuant notre conversation précédente, " ++ response
    else response
  if ctx.conversation_history then
    if language = "ar" then "بناءً على تاريخ المحادثة، " ++ r1
    else if language = "en" then "Based on the conversation history, " ++ r1
    else "Basé sur l\x27historique de la conversation, " ++ r1
  else r1

/-- Python's `text.split()` for texts whose only whitespace is the space
character: split on runs of spaces, dropping empty fields. -/
def pySplitWs (s : String) : List String :=
  (s.splitOn " ").filter (fun w => w ≠ "")

/-- Embeds `ResponseGenerator._add_ssml_markup` (response_generator.py lines
392–420): wrap the text in `<speak>` with the first word emphasised (both
branches of the language test are identical); an empty text raises
`IndexError`, caught to return the text unchanged. -/
def addSsmlMarkup (text : String) : String :=
  match pySplitWs text with
  | [] => text
  | w :: rest =>
      "<speak><emphasis level=\x22strong\x22>" ++ w ++ "</emphasis> " ++
        joinSep " " rest ++ "</speak>"

/-- Embeds `ResponseGenerator._select_template` (response_generator.py lines
272–314): first template when context is present, a random choice (the `pick`
oracle) otherwise; language fallback order `ar` then `en` then the first
available language. -/
def selectTemplate (pick : List String → String) (intent language : String)
    (ctx : Option RCtx) : String :=
  match responseTemplates.lookup intent with
  | none => ""
  | some byLang =>
      match byLang.lookup language with
      | some ts =>
          match ctx with
          | some _ => ts.headD ""
          | none => pick ts
      | none =>
          match byLang.lookup "ar" with
          | some ts => ts.headD ""
          | none =>
              match byLang.lookup "en" with
              | some ts => ts.headD ""
              | none =>
                  match byLang with
                  | first :: _ => first.2.headD ""
                  | [] => ""

/-- Embeds `ResponseGenerator._generate_fallback_response`
(response_generator.py lines 422–437). -/
def generateFallbackResponse (language : String) : String :=
  if language = "ar" then "عذراً، لم أتمكن من فهم طلبك. يرجى توضيح ما تحتاج إليه."
  else if language = "en" then
    "Sorry, I couldn\x27t understand your request. Please clarify what you need."
  else
    "Désolé, je n\x27ai pas pu comprendre votre demande. Veuillez préciser ce dont vous avez besoin."

/-- Embeds `ResponseGenerator._generate_error_response` (response_generator.py
lines 439–455): a fixed per-language wrapper with the raw error detail
interpolated into it. -/
def generateErrorResponse (language error : String) : String :=
  if language = "ar" then "عذراً، حدث خطأ: " ++ error ++ ". يرجى المحاولة مرة أخرى لاحقاً."
  else if language = "en" then "Sorry, an error occurred: " ++ error ++ ". Please try again later."
  else "Désolé, une erreur s\x27est produite: " ++ error ++ ". Veuillez réessayer plus tard."

/-- Embeds `ResponseGenerator._generate_missing_entities_response`
(response_generator.py lines 457–476): the missing entity types joined with
the language's comma, inside a fixed per-language clarification wrapper. -/
def generateMissingEntitiesResponse (language : String) (missing : List String) : String :=
  if language = "ar" then "أحتاج إلى معلومات إضافية: " ++ joinSep "، " missing ++ ". يرجى تقديمها."
  else if language = "en" then
    "I need additional information: " ++ joinSep ", " missing ++ ". Please provide it."
  else
    "J\x27ai besoin d\x27informations supplémentaires: " ++ joinSep ", " missing ++
      ". Veuillez les fournir."

/-- The list `_generate_missing_entities_response` receives: the
`missing_entities` payload entry (always a list where the call occurs). -/
def evalAsStrList : EVal → List String
  | .list l => l
  | .str s => [s]

/-- Embeds `ResponseGenerator.generate_response` (response_generator.py lines
220–270).  `pick` is the `random.choice` oracle of `_select_template`.  Order
of the guards as in the source: unknown intent → fallback; `"error" in data` →
error response; truthy `missing_entities` → clarification; otherwise select,
fill, contextualise (Arabic diacritisation is the identity, lines 371–390) and
wrap in SSML. -/
def generateResponse (pick : List String → String) (intent : String) (data : PyDict)
    (language : String) (ctx : Option RCtx) : String :=
  if (responseTemplates.lookup intent).isNone then generateFallbackResponse language
  else
    match data.lookup "error" with
    | some e => generateErrorResponse language (pyStr e)
    | none =>
        match data.lookup "missing_entities" with
        | some m =>
            if evalFalsy m then generateRest pick intent data language ctx
            else generateMissingEntitiesResponse language (evalAsStrList m)
        | none => generateRest pick intent data language ctx
where
  /-- Steps 4–8 of `generate_response`: template selection, slot filling,
  context cues and SSML markup. -/
  generateRest (pick : List String → String) (intent : String) (data : PyDict)
      (language : String) (ctx : Option RCtx) : String :=
    let template := selectTemplate pick intent language ctx
    let response := fillTemplate template data
    let response :=
      match ctx with
      | some c => enhanceResponseWithContext response c language
      | none => response
    addSsmlMarkup response

/-! ## Transcription fusion
(`sada999/القسم_الرابع_الكود_البرمجي/services/speech_to_text.py`) -/

/-- One backend transcription result dict (`{"text", "language", "confidence",
"service"}`, plus the optional `error` and `combined_text` keys). -/
structure TransResult where
  text : String
  language : String
  confidence : ℚ
  service : String
  error : Option String := none
  combined_text : Option String := none
deriving DecidableEq, Repr

/-- Embeds `SpeechToTextService._combine_transcription_results`
(speech_to_text.py lines 216–238): keep the result with strictly higher
confidence — an exact tie keeps the Whisper result (the `else` branch) — and,
when both texts are non-empty and differ, add the `combined_text` debug field
concatenating both. -/
def combineTranscriptionResults (googleResult whisperResult : TransResult) : TransResult :=
  let finalResult :=
    if googleResult.confidence > whisperResult.confidence then googleResult
    else whisperResult
  if googleResult.text ≠ "" ∧ whisperResult.text ≠ "" ∧
      googleResult.text ≠ whisperResult.text then
    { finalResult with
        combined_text := some (googleResult.text ++ " | " ++ whisperResult.text) }
  else finalResult

/-! ## Equivalence of entity mappings (used to state cache-key
canonicalization) -/

/-- Equality of entity values up to list-element order (string values equal,
list values permutations of each other). -/
def valEquiv : EVal → EVal → Prop
  | .str a, .str b => a = b
  | .list a, .list b => a.Perm b
  | _, _ => False

/-- Equality of entity mappings up to key order and list-element order: some
reordering of the first mapping matches the second pairwise, with equal keys
and `valEquiv`-related values. -/
def entitiesEquiv (e₁ e₂ : PyDict) : Prop :=
  ∃ e₃, e₁.Perm e₃ ∧ List.Forall₂ (fun p q => p.1 = q.1 ∧ valEquiv p.2 q.2) e₃ e₂

/-- A text of 101 letters `a`: long enough (more than 100 characters) to
trigger the up-weighting branch of the length adjustment. -/
def longAText : String := String.mk (List.replicate 101 'a')

/-! ## Helper lemmas -/

theorem lexLeB_total (a b : List Char) : lexLeB a b = true ∨ lexLeB b a = true := by
  induction a generalizing b with
  | nil => left; rfl
  | cons x xs ih =>
    cases b with
    | nil => right; rfl
    | cons y ys =>
      by_cases h1 : x.toNat < y.toNat
      · left; simp [lexLeB, h1]
      · by_cases h2 : y.toNat < x.toNat
        · right; simp [lexLeB, h2]
        · simpa [lexLeB, h1, h2] using ih ys

theorem lexLeB_trans : ∀ {a b c : List Char},
    lexLeB a b = true → lexLeB b c = true → lexLeB a c = true := by
  intro a
  induction a with
  | nil => intro b c _ _; rfl
  | cons x xs ih =>
    intro b c hab hbc
    cases b with
    | nil => simp [lexLeB] at hab
    | cons y ys =>
      cases c with
      | nil => simp [lexLeB] at hbc
      | cons z zs =>
        simp only [lexLeB] at hab hbc ⊢
        split_ifs at hab hbc ⊢ <;>
          first
          | rfl
          | omega
          | exact ih hab hbc

theorem lexLeB_antisymm : ∀ {a b : List Char},
    lexLeB a b = true → lexLeB b a = true → a = b := by
  intro a
  induction a with
  | nil =>
    intro b _ hba
    cases b with
    | nil => rfl
    | cons y ys => simp [lexLeB] at hba
  | cons x xs ih =>
    intro b hab hba
    cases b with
    | nil => simp [lexLeB] at hab
    | cons y ys =>
      simp only [lexLeB] at hab hba
      split_ifs at hab hba with h1 h2 <;> try omega
      have hxy : x = y := by
        have hn : x.toNat = y.toNat := by omega
        exact Char.ext (UInt32.ext (by simpa [Char.toNat] using hn))
      exact hxy ▸ congrArg (x :: ·) (ih hab hba)

instance : IsTotal String strLe := ⟨fun a b => lexLeB_total a.toList b.toList⟩

instance : IsTrans String strLe := ⟨fun _ _ _ h h' => lexLeB_trans h h'⟩

instance : IsAntisymm String strLe :=
  ⟨fun a b h h' => by
    have hl := lexLeB_antisymm h h'
    cases a; cases b
    exact congrArg String.mk (by simpa [String.toList] using hl)⟩

instance : IsTotal (String × EVal) itemLe := ⟨fun p q => total_of strLe p.1 q.1⟩

instance : IsTrans (String × EVal) itemLe :=
  ⟨fun _ _ _ h h' => lexLeB_trans h h'⟩

theorem pyMaxByVal_mem : ∀ {l : List (String × ℚ)} {p : String × ℚ},
    pyMaxByVal l = some p → p ∈ l := by
  intro l
  induction l with
  | nil => intro p h; simp [pyMaxByVal] at h
  | cons q rest ih =>
    intro p h
    simp only [pyMaxByVal] at h
    cases hrec : pyMaxByVal rest with
    | none => rw [hrec] at h; simp at h; simp [h]
    | some r =>
      rw [hrec] at h
      by_cases hgt : r.2 > q.2
      · simp [hgt] at h
        exact List.mem_cons_of_mem _ (ih (h ▸ hrec))
      · simp [hgt] at h
        simp [h]

theorem pyMaxByVal_of_const (c : ℚ) : ∀ {l : List (String × ℚ)},
    (∀ p ∈ l, p.2 = c) → pyMaxByVal l = l.head? := by
  intro l
  induction l with
  | nil => intro _; rfl
  | cons q rest ih =>
    intro h
    simp only [pyMaxByVal]
    rw [ih (fun p hp => h p (List.mem_cons_of_mem _ hp))]
    cases rest with
    | nil => rfl
    | cons r t =>
      have hq : q.2 = c := h q (List.mem_cons_self _ _)
      have hr : r.2 = c := h r (List.mem_cons_of_mem _ (List.mem_cons_self _ _))
      simp [List.head?, hq, hr]

/-! ## C6: repetition confidence boost -/

/-- C6 — whenever the conversation context records a previous intent whose
name equals the newly classified intent's name, `_enhance_with_context`
returns confidence `min(raw_confidence * 1.2, 1.0)`. -/
theorem enhance_boost_formula (r : IntentResult) (ctx : IntentContext)
    (prev : IntentResult) (hp : ctx.previous_intent = some prev)
    (hname : prev.intent = r.intent) :
    (enhanceWithContext r ctx).confidence = min (r.confidence * (6 / 5)) 1 := by
  simp only [enhanceWithContext, hp, hname]
  cases hl : ctx.language with
  | none => simp
  | some l => by_cases hne : some l ≠ (⟨r.intent, min (r.confidence * (6 / 5)) 1,
      r.source, r.language, r.error⟩ : IntentResult).language <;> simp [hne]

/-- C6 witness — raw confidence 0.6 on a repeated intent yields exactly 0.72. -/
theorem enhance_boost_formula_witness :
    (enhanceWithContext
      { intent := "shipment_inquiry", confidence := 3 / 5, source := some "keywords" }
      { previous_intent := some { intent := "shipment_inquiry", confidence := 3 / 5 } }
      ).confidence = 18 / 25 := by
  rw [enhance_boost_formula
      { intent := "shipment_inquiry", confidence := 3 / 5, source := some "keywords" }
      { previous_intent := some { intent := "shipment_inquiry", confidence := 3 / 5 } }
      { intent := "shipment_inquiry", confidence := 3 / 5 } rfl rfl]
  norm_num

/-! ## C10: transcription fusion -/

/-- C10 — fusion selects the backend with strictly higher confidence, an
exact tie deterministically keeps the Whisper result (the fixed backend of
the `else` branch), and when both texts are non-empty and differ the fused
result additionally carries the `combined_text` debug field concatenating
both while `text` remains the selected transcript. -/
theorem combine_fusion_rule (g w : TransResult) :
    (w.confidence < g.confidence →
      (combineTranscriptionResults g w).text = g.text ∧
      (combineTranscriptionResults g w).confidence = g.confidence) ∧
    (g.confidence < w.confidence →
      (combineTranscriptionResults g w).text = w.text ∧
      (combineTranscriptionResults g w).confidence = w.confidence) ∧
    (g.confidence = w.confidence →
      (combineTranscriptionResults g w).text = w.text ∧
      (combineTranscriptionResults g w).confidence = w.confidence ∧
      (combineTranscriptionResults g w).service = w.service) ∧
    (g.text ≠ "" → w.text ≠ "" → g.text ≠ w.text →
      (combineTranscriptionResults g w).combined_text =
        some (g.text ++ " | " ++ w.text)) := by
  refine ⟨fun h => ?_, fun h => ?_, fun h => ?_, fun h1 h2 h3 => ?_⟩
  · unfold combineTranscriptionResults
    simp only [gt_iff_lt, h, if_true]
    split_ifs <;> simp
  · have hngt : ¬ w.confidence < g.confidence := not_lt.mpr (le_of_lt h)
    unfold combineTranscriptionResults
    simp only [gt_iff_lt, hngt, if_false]
    split_ifs <;> simp
  · have hngt : ¬ w.confidence < g.confidence := by simp [h]
    unfold combineTranscriptionResults
    simp only [gt_iff_lt, hngt, if_false]
    split_ifs <;> simp
  · unfold combineTranscriptionResults
    have hc : g.text ≠ "" ∧ w.text ≠ "" ∧ g.text ≠ w.text := ⟨h1, h2, h3⟩
    simp only [hc, and_self, if_true, ite_true]
    split_ifs <;> simp

/-- C10 witness — backend confidences 0.70 (Google) versus 0.95 (Whisper)
with different transcripts: the fused result equals the 0.95 backend's
transcript and confidence. -/
theorem combine_fusion_rule_witness :
    (combineTranscriptionResults
      { text := "hello", language := "en", confidence := 7 / 10, service := "google" }
      { text := "world", language := "en", confidence := 19 / 20, service := "whisper" }).text
        = "world" ∧
    (combineTranscriptionResults
      { text := "hello", language := "en", confidence := 7 / 10, service := "google" }
      { text := "world", language := "en", confidence := 19 / 20, service := "whisper" }).confidence
        = 19 / 20 :=
  (combine_fusion_rule
      { text := "hello", language := "en", confidence := 7 / 10, service := "google" }
      { text := "world", language := "en", confidence := 19 / 20, service := "whisper" }).2.1
    (by norm_num)

/-! ## C9: language detection is total and fails closed -/

theorem lookup_isSome_mem_keys {β : Type} : ∀ {l : List (String × β)} {k : String},
    (l.lookup k).isSome → k ∈ l.map Prod.fst := by
  intro l
  induction l with
  | nil => intro k h; simp [List.lookup] at h
  | cons p rest ih =>
    intro k h
    simp only [List.lookup] at h
    cases hk : (k == p.1) with
    | true => simp [List.map, eq_of_beq hk]
    | false =>
        rw [hk] at h
        exact List.mem_cons_of_mem _ (ih h)

theorem detectFromText_mem (text : String) :
    detectFromText text ∈ (["ar", "en", "fr", "es", "de"] : List String) := by
  unfold detectFromText
  cases h : pyMaxByVal (List.map
      (fun p => (p.1, charRatioScore p.2 (List.map pyLowerChar text.data))) langPatterns) with
  | none => simp [h]
  | some p =>
    have hmem := pyMaxByVal_mem h
    obtain ⟨q, hq, hpe⟩ := List.mem_map.mp hmem
    have hp1 : p.1 = q.1 := by rw [← hpe]
    fin_cases hq <;> simp [h, hp1]

/-- C9 — `detect_language` never raises (it is a total function of its
embedded inputs), returns the default language `"ar"` for the empty text, and
returns a supported language code for every text and every audio-detection
outcome, unknown or unsupported detections included. -/
theorem detect_language_total_and_fails_closed :
    detectLanguage "" none = "ar" ∧
    ∀ (text : String) (audio : Option AudioEnv),
      detectLanguage text audio ∈ (["ar", "en", "fr", "es", "de"] : List String) := by
  constructor
  · norm_num [detectLanguage, detectFromText, charRatioScore, langPatterns, pyMaxByVal]
  · intro text audio
    cases audio with
    | none => exact detectFromText_mem text
    | some env =>
      have htl := detectFromText_mem text
      have hal : detectFromAudio env.detected ∈ (["ar", "en", "fr", "es", "de"] : List String) := by
        unfold detectFromAudio
        cases env.detected with
        | none => simp
        | some l =>
          by_cases hs : (langPatterns.lookup l).isSome
          · have hm := lookup_isSome_mem_keys hs
            have hkeys : List.map Prod.fst langPatterns = ["ar", "en", "fr", "es", "de"] := rfl
            rw [hkeys] at hm
            simpa [hs] using hm
          · simp [hs]
      simp only [detectLanguage]
      split_ifs <;> first | exact htl | exact hal

/-! ## C5: confidence bounds of the length-adjusted scoring -/

theorem keywordScore_bounds (kws : List String) (text : String) :
    0 ≤ keywordScore kws text ∧ keywordScore kws text ≤ 6 / 5 := by
  unfold keywordScore
  by_cases hk : kws = []
  · simp only [hk, if_true]
    split_ifs <;> norm_num
  · have hlen : 0 < ((kws.length : ℚ)) := by
      have := List.length_pos.mpr hk
      exact_mod_cast this
    have hm : (((kws.filter (fun k => pySubstr k text)).length : ℚ)) ≤ (kws.length : ℚ) :=
      Nat.cast_le.mpr (List.length_filter_le _ _)
    have h0 : (0 : ℚ) ≤ ((kws.filter (fun k => pySubstr k text)).length : ℚ) / (kws.length : ℚ) :=
      div_nonneg (Nat.cast_nonneg _) (le_of_lt hlen)
    have h1 : ((kws.filter (fun k => pySubstr k text)).length : ℚ) / (kws.length : ℚ) ≤ 1 :=
      (div_le_one hlen).mpr hm
    simp only [hk, if_false]
    split_ifs <;> constructor <;> nlinarith

theorem charRatioScore_bounds (pattern : Char → Bool) (text : List Char) :
    0 ≤ charRatioScore pattern text ∧ charRatioScore pattern text ≤ 6 / 5 := by
  unfold charRatioScore
  by_cases hz : text.length = 0
  · simp only [hz, if_true]
    split_ifs <;> norm_num
  · have hlen : 0 < ((text.length : ℚ)) := by
      have := Nat.pos_of_ne_zero hz
      exact_mod_cast this
    have hm : (((text.filter pattern).length : ℚ)) ≤ (text.length : ℚ) :=
      Nat.cast_le.mpr (List.length_filter_le _ _)
    have h0 : (0 : ℚ) ≤ ((text.filter pattern).length : ℚ) / (text.length : ℚ) :=
      div_nonneg (Nat.cast_nonneg _) (le_of_lt hlen)
    have h1 : ((text.filter pattern).length : ℚ) / (text.length : ℚ) ≤ 1 :=
      (div_le_one hlen).mpr hm
    simp only [hz, if_false]
    split_ifs <;> constructor <;> nlinarith

/-- C5 counterexample — a 101-character text scores 1.2 under the detector's
length-adjusted confidence: the up-weighting applied to texts above the
length threshold is not capped at 1.0. -/
theorem calculate_text_confidence_exceeds_one :
    calculateTextConfidence longAText "en" = 6 / 5 ∧
    ¬ calculateTextConfidence longAText "en" ≤ 1 := by
  have hkey : calculateTextConfidence longAText "en" = 6 / 5 := by
    have h1 : langPatterns.lookup "en" = some isEnChar := rfl
    have h2 : (List.filter isEnChar longAText.data).length = 101 := by decide
    have h3 : longAText.data.length = 101 := by decide
    unfold calculateTextConfidence
    rw [h1]
    norm_num [charRatioScore, h2, h3]
  exact ⟨hkey, by rw [hkey]; norm_num⟩

/-- C5 (amended) — the length-adjusted confidences of the language detector's
per-language text score and of the intent classifier's keyword score lie in
`[0, 1.2]`, not `[0, 1]`: the up-weighting for texts longer than 100
characters multiplies by 1.2 without a cap. -/
theorem length_adjusted_confidence_bounds (text language : String) :
    (0 ≤ calculateTextConfidence text language ∧
      calculateTextConfidence text language ≤ 6 / 5) ∧
    (0 ≤ (extractWithKeywords text language).confidence ∧
      (extractWithKeywords text language).confidence ≤ 6 / 5) := by
  constructor
  · unfold calculateTextConfidence
    cases h : langPatterns.lookup language with
    | none => norm_num
    | some pattern => exact charRatioScore_bounds pattern text.toList
  · unfold extractWithKeywords
    cases h : pyMaxByVal (intentScores text language) with
    | none => norm_num
    | some p =>
      have hmem := pyMaxByVal_mem h
      unfold intentScores at hmem
      obtain ⟨q, _, hfq⟩ := List.mem_filterMap.mp hmem
      simp only []
      cases hlk : q.2.lookup language with
      | none => rw [hlk] at hfq; simp at hfq
      | some kws =>
        rw [hlk] at hfq
        have hp2 : p.2 = keywordScore kws text := by
          have := Option.some.inj hfq
          exact (congrArg Prod.snd this).symm
        rw [hp2]
        exact keywordScore_bounds kws text

/-! ## C1 / C4: keyword classification -/

theorem keywordScore_eq_zero_of_no_match (kws : List String) (text : String)
    (hf : kws.filter (fun k => pySubstr k text) = []) : keywordScore kws text = 0 := by
  simp only [keywordScore, hf, List.length_nil, Nat.cast_zero]
  split_ifs <;> norm_num

theorem extractWithKeywords_all_zero_head {text language name : String} {c : ℚ}
    (hzero : ∀ p ∈ intentScores text language, p.2 = 0)
    (hh : (intentScores text language).head? = some (name, c)) :
    extractWithKeywords text language =
      { intent := name, confidence := 0, source := some "keywords" } := by
  have hmax := pyMaxByVal_of_const 0 hzero
  have hc : c = 0 := by
    cases hcl : intentScores text language with
    | nil => rw [hcl] at hh; simp at hh
    | cons a t =>
        rw [hcl] at hh
        simp only [List.head?] at hh
        have ha : a ∈ intentScores text language := by
          rw [hcl]; exact List.mem_cons_self _ _
        have hz := hzero a ha
        have hae : a = (name, c) := Option.some.inj hh
        rw [hae] at hz
        exact hz
  unfold extractWithKeywords
  rw [hmax, hh, hc]

theorem intentScores_zzz_en_all_zero : ∀ p ∈ intentScores "zzz" "en", p.2 = 0 := by
  have hs : intentScores "zzz" "en" =
      [("greeting", keywordScore ["hello", "hi", "hey", "good morning", "good evening"] "zzz"),
       ("goodbye", keywordScore ["goodbye", "bye", "see you", "farewell"] "zzz"),
       ("appointment_booking",
         keywordScore ["book appointment", "schedule meeting", "when can I book"] "zzz"),
       ("shipment_inquiry",
         keywordScore ["track shipment", "where is my package", "shipping status"] "zzz"),
       ("account_balance", keywordScore ["account balance", "my balance", "check balance"] "zzz"),
       ("general_inquiry", keywordScore ["what is", "what", "how", "when", "where", "why"] "zzz")] :=
    rfl
  have e1 := keywordScore_eq_zero_of_no_match
    ["hello", "hi", "hey", "good morning", "good evening"] "zzz" (by decide)
  have e2 := keywordScore_eq_zero_of_no_match
    ["goodbye", "bye", "see you", "farewell"] "zzz" (by decide)
  have e3 := keywordScore_eq_zero_of_no_match
    ["book appointment", "schedule meeting", "when can I book"] "zzz" (by decide)
  have e4 := keywordScore_eq_zero_of_no_match
    ["track shipment", "where is my package", "shipping status"] "zzz" (by decide)
  have e5 := keywordScore_eq_zero_of_no_match
    ["account balance", "my balance", "check balance"] "zzz" (by decide)
  have e6 := keywordScore_eq_zero_of_no_match
    ["what is", "what", "how", "when", "where", "why"] "zzz" (by decide)
  rw [hs]
  intro p hp
  fin_cases hp <;> first | exact e1 | exact e2 | exact e3 | exact e4 | exact e5 | exact e6

/-- C4 counterexample — for text `"zzz"` in the supported language `"en"`
every intent's keyword-overlap score is zero, yet the classifier returns the
first catalog intent `greeting` with confidence 0.0, not the designated
default `general_inquiry` with confidence 0.5. -/
theorem keyword_zero_scores_counterexample :
    (∀ p ∈ intentScores "zzz" "en", p.2 = 0) ∧
    extractWithKeywords "zzz" "en" =
      { intent := "greeting", confidence := 0, source := some "keywords" } ∧
    extractWithKeywords "zzz" "en" ≠
      { intent := "general_inquiry", confidence := 1 / 2, source := some "keywords" } := by
  have hr := extractWithKeywords_all_zero_head intentScores_zzz_en_all_zero rfl
  exact ⟨intentScores_zzz_en_all_zero, hr, by rw [hr]; simp⟩

/-- C4 (amended) — when keyword lists exist for the language but every
intent's keyword-overlap score is zero, the classifier returns the first
catalog intent (`greeting`) with confidence 0.0 and source `keywords`; the
`general_inquiry` / 0.5 fallback fires only when the language has no keyword
lists at all. -/
theorem keyword_zero_scores_return_first_intent (text language : String)
    (hlang : language ∈ (["ar", "en", "fr", "es", "de"] : List String))
    (hzero : ∀ p ∈ intentScores text language, p.2 = 0) :
    extractWithKeywords text language =
      { intent := "greeting", confidence := 0, source := some "keywords" } := by
  fin_cases hlang <;> exact extractWithKeywords_all_zero_head hzero rfl

/-- C4 witness — at text `"zzz"`, language `"en"` the amended statement's
hypotheses hold and the classifier returns `greeting` / 0.0. -/
theorem keyword_zero_scores_return_first_intent_witness :
    extractWithKeywords "zzz" "en" =
      { intent := "greeting", confidence := 0, source := some "keywords" } :=
  keyword_zero_scores_return_first_intent "zzz" "en" (by decide)
    intentScores_zzz_en_all_zero

/-- C1 — the keyword fallback path of `extract_intent` is unreachable: the
missing `import re` makes `_clean_text` raise `NameError` on every call, so
`extract_intent` returns the exception-path `general_inquiry` / 0.0 error
dict even when the external NLU step yields no result, instead of the
keyword-heuristic classification of the text (which, for `"hello"` in
English, would be `greeting` with confidence 0.14 and source `keywords`). -/
theorem extract_intent_name_error_blocks_keyword_fallback :
    extractIntent none "hello" "en" none =
      { intent := "general_inquiry", confidence := 0, error := some nameErrorRe } ∧
    extractWithKeywords "hello" "en" =
      { intent := "greeting", confidence := 7 / 50, source := some "keywords" } ∧
    extractIntent none "hello" "en" none ≠ extractWithKeywords "hello" "en" := by
  have h1 : extractIntent none "hello" "en" none =
      { intent := "general_inquiry", confidence := 0, error := some nameErrorRe } := rfl
  have hs : intentScores "hello" "en" =
      [("greeting", keywordScore ["hello", "hi", "hey", "good morning", "good evening"] "hello"),
       ("goodbye", keywordScore ["goodbye", "bye", "see you", "farewell"] "hello"),
       ("appointment_booking",
         keywordScore ["book appointment", "schedule meeting", "when can I book"] "hello"),
       ("shipment_inquiry",
         keywordScore ["track shipment", "where is my package", "shipping status"] "hello"),
       ("account_balance",
         keywordScore ["account balance", "my balance", "check balance"] "hello"),
       ("general_inquiry",
         keywordScore ["what is", "what", "how", "when", "where", "why"] "hello")] := rfl
  have hg : keywordScore ["hello", "hi", "hey", "good morning", "good evening"] "hello" = 7 / 50 := by
    have hf : List.filter (fun k => pySubstr k "hello")
        ["hello", "hi", "hey", "good morning", "good evening"] = ["hello"] := by decide
    have hl : ("hello" : String).length = 5 := by decide
    norm_num [keywordScore, hf, hl]
    simp
  have e2 := keywordScore_eq_zero_of_no_match
    ["goodbye", "bye", "see you", "farewell"] "hello" (by decide)
  have e3 := keywordScore_eq_zero_of_no_match
    ["book appointment", "schedule meeting", "when can I book"] "hello" (by decide)
  have e4 := keywordScore_eq_zero_of_no_match
    ["track shipment", "where is my package", "shipping status"] "hello" (by decide)
  have e5 := keywordScore_eq_zero_of_no_match
    ["account balance", "my balance", "check balance"] "hello" (by decide)
  have e6 := keywordScore_eq_zero_of_no_match
    ["what is", "what", "how", "when", "where", "why"] "hello" (by decide)
  have hmax : pyMaxByVal (intentScores "hello" "en") = some ("greeting", 7 / 50) := by
    rw [hs, hg, e2, e3, e4, e5, e6]
    norm_num [pyMaxByVal]
  have h2 : extractWithKeywords "hello" "en" =
      { intent := "greeting", confidence := 7 / 50, source := some "keywords" } := by
    unfold extractWithKeywords
    rw [hmax]
  refine ⟨h1, h2, ?_⟩
  rw [h1, h2]
  simp

/-! ## C7: cache key canonicalization -/

/-- Strict key order on entity items (used only in proofs: two sorted item
lists with pairwise-distinct keys are equal once they are permutations). -/
def itemLt (p q : String × EVal) : Prop := itemLe p q ∧ p.1 ≠ q.1

instance : IsAntisymm (String × EVal) itemLt :=
  ⟨fun _p _q hpq hqp => ((hpq.2 (antisymm hpq.1 hqp.1)).elim)⟩

theorem insertionSort_strLe_eq_of_perm {l₁ l₂ : List String} (h : l₁.Perm l₂) :
    List.insertionSort strLe l₁ = List.insertionSort strLe l₂ :=
  List.eq_of_perm_of_sorted
    ((List.perm_insertionSort _ _).trans (h.trans (List.perm_insertionSort _ _).symm))
    (List.sorted_insertionSort _ _) (List.sorted_insertionSort _ _)

theorem sortedEVal_eq_of_valEquiv : ∀ {v w : EVal}, valEquiv v w → sortedEVal v = sortedEVal w
  | .str _, .str _, h => by rw [show _ = _ from h]
  | .list _, .list _, h => by
      simp only [sortedEVal]
      rw [insertionSort_strLe_eq_of_perm h]
  | .str _, .list _, h => h.elim
  | .list _, .str _, h => h.elim

theorem map_sortedEVal_eq_of_forall₂ : ∀ {l₁ l₂ : List (String × EVal)},
    List.Forall₂ (fun p q => p.1 = q.1 ∧ valEquiv p.2 q.2) l₁ l₂ →
    l₁.map (fun p => (p.1, sortedEVal p.2)) = l₂.map (fun p => (p.1, sortedEVal p.2)) := by
  intro l₁ l₂ hf
  induction hf with
  | nil => rfl
  | cons h _ ih =>
      simp only [List.map_cons, List.cons.injEq]
      exact ⟨by rw [h.1, sortedEVal_eq_of_valEquiv h.2], ih⟩

theorem eq_of_perm_sorted_nodup_keys {l₁ l₂ : List (String × EVal)} (hp : l₁.Perm l₂)
    (hs₁ : l₁.Sorted itemLe) (hs₂ : l₂.Sorted itemLe)
    (hn₁ : (l₁.map Prod.fst).Nodup) : l₁ = l₂ := by
  have hn₂ : (l₂.map Prod.fst).Nodup := hn₁.perm (hp.map Prod.fst)
  have hpw₁ : l₁.Pairwise (fun p q => p.1 ≠ q.1) := List.pairwise_map.mp hn₁
  have hpw₂ : l₂.Pairwise (fun p q => p.1 ≠ q.1) := List.pairwise_map.mp hn₂
  have hs₁' : l₁.Sorted itemLt := (hs₁.and hpw₁).imp (fun h => h)
  have hs₂' : l₂.Sorted itemLt := (hs₂.and hpw₂).imp (fun h => h)
  exact List.eq_of_perm_of_sorted hp hs₁' hs₂'

/-- C7 — the cache key is invariant under the internal ordering of the entity
mapping and of each list-valued entity: two entity dicts that are equal up to
key order and list-element order produce the identical key string, the intent
concatenated with the deterministically sorted serialization of the
entities. -/
theorem generate_cache_key_canonical (intent : String) (e₁ e₂ : PyDict)
    (hnodup : (e₁.map Prod.fst).Nodup) (hequiv : entitiesEquiv e₁ e₂) :
    generateCacheKey intent e₁ = generateCacheKey intent e₂ := by
  obtain ⟨e₃, hperm, hf⟩ := hequiv
  have hmap32 : e₃.map (fun p => (p.1, sortedEVal p.2)) =
      e₂.map (fun p => (p.1, sortedEVal p.2)) := map_sortedEVal_eq_of_forall₂ hf
  have hpermn : (e₁.map (fun p => (p.1, sortedEVal p.2))).Perm
      (e₂.map (fun p => (p.1, sortedEVal p.2))) := by
    have := hperm.map (fun p => (p.1, sortedEVal p.2))
    rwa [hmap32] at this
  have hsortperm : ((List.insertionSort itemLe e₁).map (fun p => (p.1, sortedEVal p.2))).Perm
      ((List.insertionSort itemLe e₂).map (fun p => (p.1, sortedEVal p.2))) :=
    (((List.perm_insertionSort itemLe e₁).map _).trans hpermn).trans
      ((List.perm_insertionSort itemLe e₂).map _).symm
  have hsorted : ∀ (e : PyDict),
      ((List.insertionSort itemLe e).map (fun p => (p.1, sortedEVal p.2))).Sorted itemLe :=
    fun e => List.pairwise_map.mpr
      ((List.sorted_insertionSort itemLe e).imp (fun h => h))
  have hkeys : ((List.insertionSort itemLe e₁).map (fun p => (p.1, sortedEVal p.2))).map
      Prod.fst = (List.insertionSort itemLe e₁).map Prod.fst := by
    simp [List.map_map, Function.comp]
  have hnodup' : (((List.insertionSort itemLe e₁).map
      (fun p => (p.1, sortedEVal p.2))).map Prod.fst).Nodup := by
    rw [hkeys]
    exact hnodup.perm ((List.perm_insertionSort itemLe e₁).map Prod.fst).symm
  have hm := eq_of_perm_sorted_nodup_keys hsortperm (hsorted e₁) (hsorted e₂) hnodup'
  simp only [generateCacheKey, hm]

/-- C7 witness — the same two entities supplied in a different key order,
with a list value supplied in a different element order, yield the identical
cache key. -/
theorem generate_cache_key_canonical_witness :
    generateCacheKey "appointment_booking"
      [("time", .str "10:00"), ("date", .list ["b", "a"])] =
    generateCacheKey "appointment_booking"
      [("date", .list ["a", "b"]), ("time", .str "10:00")] :=
  generate_cache_key_canonical "appointment_booking"
    [("time", .str "10:00"), ("date", .list ["b", "a"])]
    [("date", .list ["a", "b"]), ("time", .str "10:00")]
    (by decide)
    ⟨[("date", .list ["b", "a"]), ("time", .str "10:00")],
     by decide,
     List.Forall₂.cons ⟨rfl, (by decide : List.Perm ["b", "a"] ["a", "b"])⟩
       (List.Forall₂.cons ⟨rfl, rfl⟩ List.Forall₂.nil)⟩

/-! ## C3: missing-entity gating -/

/-- C3 — for every intent that has a `QueryDefinition`, when at least one
required param is absent from the entity mapping or maps to an empty value,
`query_data` returns the `MissingEntities` result listing exactly the required
params that are absent or empty, performs no backend request and leaves the
cache untouched; and the composer's clarification reply lists exactly those
entity types, comma-joined. -/
theorem query_data_missing_entity_gating
    (exec : String → List (String × String) → PyDict) (now : ℚ) (cache : Cache)
    (intent : String) (qd : QueryDef) (entities : PyDict)
    (hdef : queryDefs.lookup intent = some qd)
    (hmiss : qd.required_params.filter (fun p => entityMissing entities p) ≠ []) :
    queryData exec now intent entities cache =
      ([("error", .str ("الكياانات المفقودة: " ++
          joinSep ", " (qd.required_params.filter (fun p => entityMissing entities p)))),
        ("missing_entities",
          .list (qd.required_params.filter (fun p => entityMissing entities p)))],
       cache, false) ∧
    generateMissingEntitiesResponse "en"
        (qd.required_params.filter (fun p => entityMissing entities p)) =
      "I need additional information: " ++
        joinSep ", " (qd.required_params.filter (fun p => entityMissing entities p)) ++
        ". Please provide it." := by
  constructor
  · have hno : ¬ ((qd.required_params.filter (fun p => entityMissing entities p)).isEmpty
        = true) := by
      cases hfl : qd.required_params.filter (fun p => entityMissing entities p) with
      | nil => exact absurd hfl hmiss
      | cons a t => simp
    simp [queryData, hdef, hno]
  · rfl

/-- C3 witness — `appointment_booking` with entities containing only `date`
yields exactly the missing set `{time, service_type}`, no backend call, an
unchanged cache, and the clarification listing exactly those two. -/
theorem query_data_missing_entity_gating_witness :
    queryData (fun _ _ => []) 0 "appointment_booking" [("date", EVal.str "2024-05-01")] [] =
      ([("error", EVal.str "الكياانات المفقودة: time, service_type"),
        ("missing_entities", EVal.list ["time", "service_type"])], [], false) ∧
    generateMissingEntitiesResponse "en" ["time", "service_type"] =
      "I need additional information: time, service_type. Please provide it." := by
  obtain ⟨h1, _h2⟩ := query_data_missing_entity_gating (fun _ _ => []) 0 []
    "appointment_booking" _ [("date", EVal.str "2024-05-01")] rfl (by decide)
  exact ⟨h1.trans (by decide), by decide⟩

/-! ## C2: cache idempotence -/

/-- C2 counterexample — with a backend whose mapped result is the empty
(falsy) dict, the second `query_data` call within the TTL performs the
backend request again: line 132's `if cached_result:` treats the cached falsy
dict as a miss, so the backend is not invoked "only on the first call". -/
theorem query_data_falsy_result_requeried :
    (queryData (fun _ _ => []) 0 "general_inquiry" [("query", EVal.str "x")] []).2.2 = true ∧
    (queryData (fun _ _ => []) 1 "general_inquiry" [("query", EVal.str "x")]
      (queryData (fun _ _ => []) 0 "general_inquiry" [("query", EVal.str "x")] []).2.1).2.2
      = true := by
  constructor
  · rfl
  · have hcache : (queryData (fun _ _ => []) 0 "general_inquiry"
        [("query", EVal.str "x")] []).2.1 =
        [(generateCacheKey "general_inquiry" [("query", EVal.str "x")], ⟨[], 0⟩)] := rfl
    rw [hcache]
    have hlt : (1 : ℚ) < cacheTTL := by norm_num [cacheTTL]
    simp [queryData, getFromCache, List.lookup, hlt, setCache, buildQueryParams, addParams,
      collapseEVal, entityMissing, evalFalsy, queryDefs, dictSet]

/-- C2 (amended) — for a fixed intent with a `QueryDefinition` and an entity
mapping satisfying all required params, provided the first call's mapped
backend result is a non-empty (truthy) dict: the first call from an empty
cache invokes the backend and stores the result; a second call within the TTL
returns the identical mapped result without a backend invocation; and once
`now - stored_at` reaches the TTL the entry is treated as absent (lazily
evicted on that lookup) and a fresh backend invocation occurs.  (A falsy
(empty-dict) result is never treated as a cache hit — see the
counterexample.) -/
theorem query_data_cache_idempotent
    (exec : String → List (String × String) → PyDict) (t0 t1 t2 : ℚ)
    (intent : String) (qd : QueryDef) (entities : PyDict)
    (params : List (String × String))
    (hdef : queryDefs.lookup intent = some qd)
    (hreq : ∀ p ∈ qd.required_params, entityMissing entities p = false)
    (hbuild : buildQueryParams intent entities = .ok params)
    (hne : exec intent params ≠ [])
    (hfresh : t1 - t0 < cacheTTL)
    (hstale : cacheTTL ≤ t2 - t0) :
    queryData exec t0 intent entities [] =
      (exec intent params,
       [(generateCacheKey intent entities, ⟨exec intent params, t0⟩)], true) ∧
    queryData exec t1 intent entities
        [(generateCacheKey intent entities, ⟨exec intent params, t0⟩)] =
      (exec intent params,
       [(generateCacheKey intent entities, ⟨exec intent params, t0⟩)], false) ∧
    (queryData exec t2 intent entities
        [(generateCacheKey intent entities, ⟨exec intent params, t0⟩)]).2.2 = true := by
  have hmiss : qd.required_params.filter (fun p => entityMissing entities p) = [] := by
    apply List.filter_eq_nil_iff.mpr
    intro p hp
    simp [hreq p hp]
  have hni : (exec intent params).isEmpty = false := by
    cases hc : exec intent params with
    | nil => exact absurd hc hne
    | cons a t => rfl
  refine ⟨?_, ?_, ?_⟩
  · simp only [queryData]
    rw [hdef]
    simp [hmiss, getFromCache, List.lookup, hbuild, setCache, dictSet]
  · simp only [queryData]
    rw [hdef]
    simp [hmiss, getFromCache, List.lookup, hfresh, hni]
  · have hnlt : ¬ (t2 - t0 < cacheTTL) := not_lt.mpr hstale
    simp only [queryData]
    rw [hdef]
    simp [hmiss, getFromCache, List.lookup, hnlt, dictDel, hbuild, setCache, dictSet]

/-- C2 witness — a concrete run: intent `general_inquiry` with entity
`query = "x"` and a backend returning a non-empty dict, queried at times 0, 1
and 3600 with TTL 3600: backend on the first call only within the TTL, and a
fresh backend invocation once the TTL has elapsed. -/
theorem query_data_cache_idempotent_witness :
    queryData (fun _ _ => [("results", EVal.str "ok")]) 0 "general_inquiry"
        [("query", EVal.str "x")] [] =
      ([("results", EVal.str "ok")],
       [(generateCacheKey "general_inquiry" [("query", EVal.str "x")],
         ⟨[("results", EVal.str "ok")], 0⟩)], true) ∧
    queryData (fun _ _ => [("results", EVal.str "ok")]) 1 "general_inquiry"
        [("query", EVal.str "x")]
        [(generateCacheKey "general_inquiry" [("query", EVal.str "x")],
          ⟨[("results", EVal.str "ok")], 0⟩)] =
      ([("results", EVal.str "ok")],
       [(generateCacheKey "general_inquiry" [("query", EVal.str "x")],
         ⟨[("results", EVal.str "ok")], 0⟩)], false) ∧
    (queryData (fun _ _ => [("results", EVal.str "ok")]) 3600 "general_inquiry"
        [("query", EVal.str "x")]
        [(generateCacheKey "general_inquiry" [("query", EVal.str "x")],
          ⟨[("results", EVal.str "ok")], 0⟩)]).2.2 = true :=
  query_data_cache_idempotent (fun _ _ => [("results", EVal.str "ok")]) 0 1 3600
    "general_inquiry" _ [("query", EVal.str "x")] [("query", "x")] rfl (by decide) rfl
    (by simp) (by norm_num [cacheTTL]) (by norm_num [cacheTTL])

/-! ## C8: error responses embed the raw error detail -/

theorem isPrefixOf_append_self : ∀ (l t : List Char), l.isPrefixOf (l ++ t) = true := by
  intro l
  induction l with
  | nil => intro t; simp [List.isPrefixOf]
  | cons c cs ih => intro t; simp [List.isPrefixOf, ih]

theorem isSubstr_sandwich (n : List Char) : ∀ (a b : List Char),
    isSubstr n (a ++ (n ++ b)) = true := by
  intro a
  induction a with
  | nil =>
    intro b
    cases n with
    | nil => cases b <;> simp [isSubstr, List.isPrefixOf]
    | cons m ms =>
      have h := isPrefixOf_append_self (m :: ms) b
      simp only [List.nil_append, isSubstr]
      simp [h]
  | cons c cs ih =>
    intro b
    simp only [List.cons_append, isSubstr]
    simp [ih b]

theorem pySubstr_middle (e a b : String) : pySubstr e (a ++ e ++ b) = true := by
  unfold pySubstr
  have : (a ++ e ++ b).toList = a.toList ++ (e.toList ++ b.toList) := by
    show (a ++ e ++ b).data = a.data ++ (e.data ++ b.data)
    simp [String.data_append]
  rw [this]
  exact isSubstr_sandwich e.toList a.toList b.toList

/-- C8 counterexample — a data payload carrying the technical error detail
`"timeout"` makes `generate_response` return the English error phrasing with
the raw detail embedded verbatim, contradicting "the returned text never
embeds the raw technical error detail string". -/
theorem generate_response_embeds_error_detail :
    generateResponse (fun l => l.headD "") "general_inquiry"
        [("error", EVal.str "timeout")] "en" none =
      "Sorry, an error occurred: timeout. Please try again later." ∧
    pySubstr "timeout"
      (generateResponse (fun l => l.headD "") "general_inquiry"
        [("error", EVal.str "timeout")] "en" none) = true := by
  constructor <;> decide

/-- C8 (amended) — for every intent present in the template catalog and every
data payload carrying an error string, `generate_response` returns the fixed
language-appropriate error phrasing for the caller's language, but that
phrasing embeds the raw technical error detail string carried in the data
payload. -/
theorem generate_response_error_branch
    (pick : List String → String) (intent : String) (data : PyDict)
    (language e : String) (ctx : Option RCtx)
    (hintent : (responseTemplates.lookup intent).isSome = true)
    (herr : data.lookup "error" = some (.str e)) :
    generateResponse pick intent data language ctx = generateErrorResponse language e ∧
    pySubstr e (generateResponse pick intent data language ctx) = true := by
  have h1 : generateResponse pick intent data language ctx =
      generateErrorResponse language e := by
    cases ho : responseTemplates.lookup intent with
    | none => rw [ho] at hintent; simp at hintent
    | some ts => simp [generateResponse, ho, herr, pyStr]
  refine ⟨h1, ?_⟩
  rw [h1]
  unfold generateErrorResponse
  split_ifs <;> exact pySubstr_middle e _ _

/-- C8 witness — the amended statement at a concrete input: intent
`general_inquiry`, error detail `"db down"`, language `"en"`. -/
theorem generate_response_error_branch_witness :
    generateResponse (fun l => l.headD "") "general_inquiry"
        [("error", EVal.str "db down")] "en" none =
      generateErrorResponse "en" "db down" ∧
    pySubstr "db down"
      (generateResponse (fun l => l.headD "") "general_inquiry"
        [("error", EVal.str "db down")] "en" none) = true :=
  generate_response_error_branch (fun l => l.headD "") "general_inquiry"
    [("error", EVal.str "db down")] "en" "db down" none (by decide) rfl

end Sada
